import Mathlib

/-!
A verification development for the Linear tracker plugin
(`src/client.ts`, `src/index.ts`, `src/types.ts`).

The TypeScript source is shallowly embedded:

* String-literal union types (task statuses, Linear workflow state types,
  conflict resolutions) are embedded as `String`, matching their erased
  runtime representation; unrecognized values flow into the same
  `default` branches the source has.
* JavaScript numbers holding priorities and pagination bounds are
  embedded as `Int` (priorities) and `Nat` (offset/limit).
* The `Map` caches of the plugin are embedded as association lists with
  an overwriting `cacheSet` and a `cacheGet` lookup.
* The remote Linear API client is an oracle (`RemoteEnv`) whose calls
  return `Except String α`; an `.error` result models the corresponding
  `await` throwing.  Each engine operation returns
  `Except String (result × PluginState)`: an `.error` at this outer
  level models an exception escaping the operation to its caller, and a
  `try`/`catch` in the source becomes explicit handling of the inner
  `.error` cases.
* The `metadata` record built by `issueToTask` is a free-form
  `Record<string, unknown>` carrying display-only facts; no embedded
  operation reads it, so it is omitted from the embedded `TrackerTask`.
-/

/-- Linear workflow state (`LinearState` in `client.ts`): the state
`type` is one of backlog / unstarted / started / completed / canceled,
embedded as `String`. -/
structure LinearState where
  id : String
  name : String
  type : String
deriving Repr, DecidableEq

/-- A label node of a Linear issue. -/
structure LinearLabel where
  id : String
  name : String
deriving Repr, DecidableEq

/-- The assignee sub-object of a Linear issue. -/
structure LinearAssignee where
  id : String
  name : String
  email : String
deriving Repr, DecidableEq

/-- The parent sub-object of a Linear issue. -/
structure LinearParent where
  id : String
  identifier : String
  title : String
deriving Repr, DecidableEq

/-- A child node of a Linear issue; `issueToTask` only reads its
state, so only the state is embedded. -/
structure LinearChild where
  state : LinearState
deriving Repr, DecidableEq

/-- The project sub-object of a Linear issue. -/
structure LinearProject where
  id : String
  name : String
deriving Repr, DecidableEq

/-- A raw Linear issue as returned by the API (`LinearIssue` in
`client.ts`). -/
structure LinearIssue where
  id : String
  identifier : String
  title : String
  description : Option String
  priority : Int
  state : LinearState
  labels : List LinearLabel
  assignee : Option LinearAssignee
  parent : Option LinearParent
  children : Option (List LinearChild)
  project : Option LinearProject
  createdAt : String
  updatedAt : String
deriving Repr, DecidableEq

/-- The input object of `LinearApiClient.updateIssue`: every field is
optional; an absent field is omitted from the mutation. -/
structure UpdateInput where
  stateId : Option String
  assigneeId : Option String
  labelIds : Option (List String)
  description : Option String
deriving Repr, DecidableEq

/-- The unified task representation (`TrackerTask` in `types.ts`).
`status` is one of open / in_progress / blocked / completed /
cancelled, embedded as `String`.  The unused `blocks`, `iteration` and
`metadata` fields are omitted. -/
structure TrackerTask where
  id : String
  title : String
  status : String
  priority : Int
  description : Option String
  labels : Option (List String)
  type : Option String
  parentId : Option String
  dependsOn : Option (List String)
  assignee : Option String
  createdAt : Option String
  updatedAt : Option String
deriving Repr, DecidableEq

/-- Result of completing a task (`TaskCompletionResult` in
`types.ts`). -/
structure TaskCompletionResult where
  success : Bool
  message : String
  task : Option TrackerTask
  error : Option String
deriving Repr, DecidableEq

/-- Result of syncing with the tracker (`SyncResult` in `types.ts`). -/
structure SyncResult where
  success : Bool
  message : String
  added : Option Nat
  updated : Option Nat
  error : Option String
  syncedAt : String
deriving Repr, DecidableEq

/-- Conflict information (`ConflictInfo` in `types.ts`). -/
structure ConflictInfo where
  taskId : String
  localVersion : TrackerTask
  remoteVersion : TrackerTask
  localUpdatedAt : String
  remoteUpdatedAt : String
  changedFields : List String
deriving Repr, DecidableEq

/-- A TypeScript field typed `T | T[]`: either a single value or a
list of values. -/
inductive OneOrMany (α : Type) where
  | one : α → OneOrMany α
  | many : List α → OneOrMany α
deriving Repr, DecidableEq

/-- Flatten a single-or-list value into a list, as the source does with
`Array.isArray(x) ? x : [x]`. -/
def OneOrMany.toList : OneOrMany α → List α
  | .one a => [a]
  | .many l => l

/-- Filter criteria (`TaskFilter` in `types.ts`); every field is
optional. -/
structure TaskFilter where
  status : Option (OneOrMany String)
  labels : Option (List String)
  priority : Option (OneOrMany Int)
  parentId : Option String
  assignee : Option String
  type : Option (OneOrMany String)
  ready : Option Bool
  limit : Option Nat
  offset : Option Nat
  excludeIds : Option (List String)
deriving Repr, DecidableEq

/-- The all-absent filter (a TypeScript call with `filter` absent
spreads to an empty object). -/
def emptyFilter : TaskFilter :=
  { status := none, labels := none, priority := none, parentId := none,
    assignee := none, type := none, ready := none, limit := none,
    offset := none, excludeIds := none }

/-- `mapStateToStatus` from `index.ts`: Linear state type to unified
status, defaulting to open. -/
def mapStateToStatus (stateType : String) : String :=
  match stateType with
  | "backlog" => "open"
  | "unstarted" => "open"
  | "started" => "in_progress"
  | "completed" => "completed"
  | "canceled" => "cancelled"
  | _ => "open"

/-- `mapStatusToStateType` from `index.ts`: unified status to Linear
state type, defaulting to unstarted. -/
def mapStatusToStateType (status : String) : String :=
  match status with
  | "open" => "unstarted"
  | "in_progress" => "started"
  | "completed" => "completed"
  | "cancelled" => "canceled"
  | "blocked" => "started"
  | _ => "unstarted"

/-- `mapPriority` from `index.ts`: Linear priority to unified
priority. -/
def mapPriority (linearPriority : Int) : Int :=
  if linearPriority = 0 then 2
  else min 4 (max 0 (linearPriority - 1))

/-- `issueToTask` from `index.ts`: convert a Linear issue to a
unified task (the display-only `metadata` record is omitted, see the
file header). -/
def issueToTask (issue : LinearIssue) : TrackerTask :=
  let labels := issue.labels.map (·.name)
  let isEpic := labels.any (fun l => l.toLower = "epic")
  { id := issue.id
    title := issue.identifier ++ ": " ++ issue.title
    status := mapStateToStatus issue.state.type
    priority := mapPriority issue.priority
    description := issue.description
    labels := some labels
    type := some (if isEpic then "epic" else "task")
    parentId := issue.parent.map (·.id)
    dependsOn := none
    assignee := issue.assignee.map (·.email)
    createdAt := some issue.createdAt
    updatedAt := some issue.updatedAt }

/-- The per-dependency predicate inside `checkTaskReady`: the
dependency id finds no task in the supplied set, or finds one whose
status is completed or cancelled. -/
def depSatisfied (allTasks : List TrackerTask) (depId : String) : Bool :=
  match allTasks.find? (fun t => t.id = depId) with
  | none => true
  | some depTask =>
    depTask.status = "completed" || depTask.status = "cancelled"

/-- `checkTaskReady` from `index.ts`: a task is ready when every
dependency either has no matching task in the supplied set or resolves
to a completed/cancelled task. -/
def checkTaskReady (task : TrackerTask) (allTasks : List TrackerTask) : Bool :=
  match task.dependsOn with
  | none => true
  | some deps =>
    if deps.isEmpty then true
    else deps.all (fun depId => depSatisfied allTasks depId)

/-- Truthiness of `filter.status` in `if (filter.status)`: a present
list (even empty) is truthy, a present single string is truthy unless
empty. -/
def strCritApplies (c : Option (OneOrMany String)) : Bool :=
  match c with
  | none => false
  | some (.one s) => !(s == "")
  | some (.many _) => true

/-- The status values of a filter, flattened. -/
def statusList (f : TaskFilter) : List String :=
  match f.status with
  | some ov => ov.toList
  | none => []

/-- The label values of a filter. -/
def labelsList (f : TaskFilter) : List String :=
  match f.labels with
  | some l => l
  | none => []

/-- Truthiness of `filter.labels && filter.labels.length > 0`. -/
def labelsApplies (f : TaskFilter) : Bool :=
  match f.labels with
  | some l => !l.isEmpty
  | none => false

/-- The priority values of a filter, flattened. -/
def priorityList (f : TaskFilter) : List Int :=
  match f.priority with
  | some ov => ov.toList
  | none => []

/-- `filter.priority !== undefined`. -/
def priorityApplies (f : TaskFilter) : Bool :=
  match f.priority with
  | some _ => true
  | none => false

/-- Truthiness of an optional string field such as `filter.parentId`:
present and non-empty. -/
def optStrApplies (c : Option String) : Bool :=
  match c with
  | some s => !(s == "")
  | none => false

/-- The type values of a filter, flattened. -/
def typeList (f : TaskFilter) : List String :=
  match f.type with
  | some ov => ov.toList
  | none => []

/-- The excluded ids of a filter. -/
def excludeList (f : TaskFilter) : List String :=
  match f.excludeIds with
  | some l => l
  | none => []

/-- Truthiness of `filter.excludeIds && filter.excludeIds.length > 0`. -/
def excludeApplies (f : TaskFilter) : Bool :=
  match f.excludeIds with
  | some l => !l.isEmpty
  | none => false

/-- `t.labels?.includes(label)`: false when the task has no label
list. -/
def taskHasLabel (t : TrackerTask) (label : String) : Bool :=
  match t.labels with
  | some ls => ls.contains label
  | none => false

/-- `t.type && types.includes(t.type)`: an absent or empty type never
matches. -/
def taskTypeMatches (f : TaskFilter) (t : TrackerTask) : Bool :=
  match t.type with
  | some ty => !(ty == "") && (typeList f).contains ty
  | none => false

/-- `filterTasks` from `index.ts`: the sequential filter pipeline.
Each criterion narrows the running result when its guard is truthy;
readiness is checked against the full input collection; offset and
limit slice the final result. -/
def filterTasks (tasks : List TrackerTask) (filter? : Option TaskFilter) :
    List TrackerTask :=
  match filter? with
  | none => tasks
  | some f =>
    let r1 := if strCritApplies f.status then
        tasks.filter (fun t => (statusList f).contains t.status) else tasks
    let r2 := if labelsApplies f then
        r1.filter (fun t => (labelsList f).all (fun label => taskHasLabel t label)) else r1
    let r3 := if priorityApplies f then
        r2.filter (fun t => (priorityList f).contains t.priority) else r2
    let r4 := if optStrApplies f.parentId then
        r3.filter (fun t => t.parentId == f.parentId) else r3
    let r5 := if optStrApplies f.assignee then
        r4.filter (fun t => t.assignee == f.assignee) else r4
    let r6 := if strCritApplies f.type then
        r5.filter (fun t => taskTypeMatches f t) else r5
    let r7 := if excludeApplies f then
        r6.filter (fun t => !((excludeList f).contains t.id)) else r6
    let r8 := if f.ready == some true then
        r7.filter (fun t => checkTaskReady t tasks) else r7
    let r9 := match f.offset with
      | some o => if 0 < o then r8.drop o else r8
      | none => r8
    match f.limit with
    | some n => if 0 < n then r9.take n else r9
    | none => r9

-- Quick sanity checks of the pure helpers against the spec's examples.

/-- Overwriting insertion into an association-list map
(`Map.prototype.set`). -/
def cacheSet (k : String) (v : α) : List (String × α) → List (String × α)
  | [] => [(k, v)]
  | (k', v') :: rest =>
    if k' = k then (k, v) :: rest else (k', v') :: cacheSet k v rest

/-- Lookup in an association-list map (`Map.prototype.get`). -/
def cacheGet (m : List (String × α)) (k : String) : Option α :=
  (m.find? (fun p => p.1 = k)).map (·.2)

/-- The mutable fields of `LinearTrackerPlugin` that the engine
operations read and write.  `hasClient = false` models
`this.client === null`. -/
structure PluginState where
  hasClient : Bool
  projectId : String
  teamId : String
  labelName : String
  userId : String
  taskCache : List (String × TrackerTask)
  stateCache : List (String × List LinearState)
  lastSyncedTasks : List (String × (TrackerTask × String))
deriving Repr, DecidableEq

/-- The remote Linear API as an oracle: each call either returns a
value or throws (`.error`).  `now` stands for
`new Date().toISOString()`. -/
structure RemoteEnv where
  getViewer : Except String LinearAssignee
  getStates : String → Except String (List LinearState)
  getIssuesByLabel : String → String → Except String (List LinearIssue)
  getIssue : String → Except String LinearIssue
  updateIssue : String → UpdateInput → Except String LinearIssue
  addComment : String → String → Except String Unit
  getEpicIssues : String → Except String (List LinearIssue)
  now : String

/-- `getTeamStates`: memoized per-team workflow-state fetch.  No
`try`/`catch` in the source, so a throwing `getStates` call
propagates. -/
def getTeamStates (s : PluginState) (env : RemoteEnv) :
    Except String (List LinearState × PluginState) :=
  if !s.hasClient || s.teamId == "" then .ok ([], s)
  else
    match cacheGet s.stateCache s.teamId with
    | some states => .ok (states, s)
    | none =>
      match env.getStates s.teamId with
      | .error e => .error e
      | .ok states =>
        .ok (states, { s with stateCache := cacheSet s.teamId states s.stateCache })

/-- `findStateByType`: first workflow state of the given type, if
any. -/
def findStateByType (s : PluginState) (env : RemoteEnv) (targetType : String) :
    Except String (Option String × PluginState) :=
  match getTeamStates s env with
  | .error e => .error e
  | .ok (states, s1) =>
    .ok ((states.find? (fun st => st.type = targetType)).map (·.id), s1)

/-- `getTasks`: full fetch by label, normalize, overwrite cache
entries, filter.  All failures are caught and yield an empty list. -/
def getTasks (s : PluginState) (env : RemoteEnv) (filter? : Option TaskFilter) :
    Except String (List TrackerTask × PluginState) :=
  if !s.hasClient || s.projectId == "" then .ok ([], s)
  else
    match env.getIssuesByLabel s.projectId s.labelName with
    | .error _ => .ok ([], s)
    | .ok issues =>
      let tasks := issues.map issueToTask
      let s1 := { s with
        taskCache := tasks.foldl (fun m t => cacheSet t.id t m) s.taskCache }
      .ok (filterTasks tasks filter?, s1)

/-- `getTask`: cache lookup first, then a remote fetch-by-id fallback;
a failing fetch yields `none`. -/
def getTask (s : PluginState) (env : RemoteEnv) (id : String) :
    Except String (Option TrackerTask × PluginState) :=
  match cacheGet s.taskCache id with
  | some t => .ok (some t, s)
  | none =>
    if !s.hasClient then .ok (none, s)
    else
      match env.getIssue id with
      | .error _ => .ok (none, s)
      | .ok issue =>
        let task := issueToTask issue
        .ok (some task, { s with taskCache := cacheSet id task s.taskCache })

/-- Stable ascending sort by priority
(`tasks.sort((a, b) => a.priority - b.priority)`). -/
def sortByPriority (tasks : List TrackerTask) : List TrackerTask :=
  tasks.mergeSort (fun a b => a.priority ≤ b.priority)

/-- The filter `getNextTask` builds: the caller's filter with status
and readiness overridden. -/
def nextTaskFilter (filter? : Option TaskFilter) : TaskFilter :=
  { filter?.getD emptyFilter with
    status := some (.many ["open", "in_progress"])
    ready := some true }

/-- `getNextTask`: restrict to ready open/in-progress tasks, sort
ascending by priority, prefer an in-progress task, else the head of
the sorted list. -/
def getNextTask (s : PluginState) (env : RemoteEnv) (filter? : Option TaskFilter) :
    Except String (Option TrackerTask × PluginState) :=
  match getTasks s env (some (nextTaskFilter filter?)) with
  | .error e => .error e
  | .ok (tasks, s1) =>
    if tasks.isEmpty then .ok (none, s1)
    else
      let sorted := sortByPriority tasks
      match sorted.find? (fun t => t.status = "in_progress") with
      | some inProgress => .ok (some inProgress, s1)
      | none => .ok (sorted.head?, s1)

/-- The failure result `completeTask` returns from its `catch`
block. -/
def completeCatchResult (id : String) (e : String) : TaskCompletionResult :=
  { success := false
    message := "Failed to complete task " ++ id
    task := none
    error := some e }

/-- `completeTask`: resolve the completed workflow state (failing
fast, without throwing, when the team lacks one), update the issue,
optionally append a note, and overwrite the cache entry.  The sync
baseline is never written. -/
def completeTask (s : PluginState) (env : RemoteEnv) (id : String)
    (reason : Option String) : Except String (TaskCompletionResult × PluginState) :=
  if !s.hasClient then
    .ok ({ success := false, message := "Linear client not initialized",
           task := none, error := some "Client not ready" }, s)
  else
    match findStateByType s env "completed" with
    | .error e => .ok (completeCatchResult id e, s)
    | .ok (none, s1) =>
      .ok ({ success := false, message := "Could not find completed state",
             task := none,
             error := some "No completed state found in team workflow" }, s1)
    | .ok (some completedStateId, s1) =>
      match env.updateIssue id
          { stateId := some completedStateId, assigneeId := none,
            labelIds := none, description := none } with
      | .error e => .ok (completeCatchResult id e, s1)
      | .ok updatedIssue =>
        let noteResult : Except String Unit :=
          match reason with
          | some r => env.addComment id ("Task completed by ralph-tui: " ++ r)
          | none => .ok ()
        match noteResult with
        | .error e => .ok (completeCatchResult id e, s1)
        | .ok _ =>
          let task := issueToTask updatedIssue
          .ok ({ success := true,
                 message := "Task " ++ updatedIssue.identifier ++ " marked as complete",
                 task := some task, error := none },
               { s1 with taskCache := cacheSet id task s1.taskCache })

/-- `updateTaskStatus`: translate the status, resolve the workflow
state (returning `none` when the team lacks it), update, and refresh
the cache only. -/
def updateTaskStatus (s : PluginState) (env : RemoteEnv) (id : String)
    (status : String) : Except String (Option TrackerTask × PluginState) :=
  if !s.hasClient then .ok (none, s)
  else
    match findStateByType s env (mapStatusToStateType status) with
    | .error _ => .ok (none, s)
    | .ok (none, s1) => .ok (none, s1)
    | .ok (some stateId, s1) =>
      match env.updateIssue id
          { stateId := some stateId, assigneeId := none,
            labelIds := none, description := none } with
      | .error _ => .ok (none, s1)
      | .ok updatedIssue =>
        let task := issueToTask updatedIssue
        .ok (some task, { s1 with taskCache := cacheSet id task s1.taskCache })

/-- `claimTask`: assign to the current user and move to the started
state in one update (the state id may be absent when the team lacks a
started state); on success write both the cache and the sync
baseline. -/
def claimTask (s : PluginState) (env : RemoteEnv) (id : String) :
    Except String (Option TrackerTask × PluginState) :=
  if !s.hasClient || s.userId == "" then .ok (none, s)
  else
    match findStateByType s env "started" with
    | .error _ => .ok (none, s)
    | .ok (inProgressStateId, s1) =>
      match env.updateIssue id
          { stateId := inProgressStateId, assigneeId := some s.userId,
            labelIds := none, description := none } with
      | .error _ => .ok (none, s1)
      | .ok updatedIssue =>
        let task := issueToTask updatedIssue
        .ok (some task,
             { s1 with
               taskCache := cacheSet id task s1.taskCache
               lastSyncedTasks :=
                 cacheSet id (task, updatedIssue.updatedAt) s1.lastSyncedTasks })

/-- `isComplete`: every task matching the filter is completed or
cancelled. -/
def isComplete (s : PluginState) (env : RemoteEnv) (filter? : Option TaskFilter) :
    Except String (Bool × PluginState) :=
  match getTasks s env filter? with
  | .error e => .error e
  | .ok (tasks, s1) =>
    .ok (tasks.all (fun t => t.status = "completed" || t.status = "cancelled"), s1)

/-- One step of the `sync` loop: classify the issue as added or
updated and overwrite cache and baseline. -/
def syncStep (acc : Nat × Nat × List (String × TrackerTask) ×
    List (String × (TrackerTask × String))) (issue : LinearIssue) :
    Nat × Nat × List (String × TrackerTask) ×
    List (String × (TrackerTask × String)) :=
  let (added, updated, tc, ls) := acc
  let task := issueToTask issue
  let (added', updated') :=
    match cacheGet tc task.id with
    | none => (added + 1, updated)
    | some cached =>
      if cached.updatedAt ≠ task.updatedAt then (added, updated + 1)
      else (added, updated)
  (added', updated', cacheSet task.id task tc,
   cacheSet task.id (task, issue.updatedAt) ls)

/-- `sync`: full fetch by label; classify each task as added or
updated purely for the counts; always overwrite cache and baseline for
every fetched id. -/
def sync (s : PluginState) (env : RemoteEnv) :
    Except String (SyncResult × PluginState) :=
  if !s.hasClient || s.projectId == "" then
    .ok ({ success := false, message := "Linear client not initialized",
           added := none, updated := none, error := some "Client not ready",
           syncedAt := env.now }, s)
  else
    match env.getIssuesByLabel s.projectId s.labelName with
    | .error e =>
      .ok ({ success := false, message := "Failed to sync with Linear",
             added := none, updated := none, error := some e,
             syncedAt := env.now }, s)
    | .ok issues =>
      let (added, updated, tc, ls) :=
        issues.foldl syncStep (0, 0, s.taskCache, s.lastSyncedTasks)
      .ok ({ success := true,
             message := "Synced " ++ toString issues.length ++ " tasks from Linear",
             added := some added, updated := some updated, error := none,
             syncedAt := env.now },
           { s with taskCache := tc, lastSyncedTasks := ls })

/-- `isTaskReady`: fetch the task and check its readiness against a
full fetch. -/
def isTaskReady (s : PluginState) (env : RemoteEnv) (id : String) :
    Except String (Bool × PluginState) :=
  match getTask s env id with
  | .error e => .error e
  | .ok (none, s1) => .ok (false, s1)
  | .ok (some task, s1) =>
    match getTasks s1 env none with
    | .error e => .error e
    | .ok (allTasks, s2) => .ok (checkTaskReady task allTasks, s2)

/-- The changed watched fields between the baseline task and the fresh
remote task, in the order the source pushes them. -/
def changedWatchedFields (localTask remoteTask : TrackerTask) : List String :=
  (if localTask.status ≠ remoteTask.status then ["status"] else []) ++
  (if localTask.title ≠ remoteTask.title then ["title"] else []) ++
  (if localTask.description ≠ remoteTask.description then ["description"] else []) ++
  (if localTask.assignee ≠ remoteTask.assignee then ["assignee"] else [])

/-- `detectConflict`: no baseline means no conflict; otherwise fetch
the remote record fresh and report a conflict exactly when the remote
`updatedAt` differs from the baseline and at least one watched field
differs. -/
def detectConflict (s : PluginState) (env : RemoteEnv) (taskId : String) :
    Except String (Option ConflictInfo × PluginState) :=
  if !s.hasClient then .ok (none, s)
  else
    match cacheGet s.lastSyncedTasks taskId with
    | none => .ok (none, s)
    | some (lastTask, lastUpdatedAt) =>
      match env.getIssue taskId with
      | .error _ => .ok (none, s)
      | .ok remoteIssue =>
        let remoteTask := issueToTask remoteIssue
        if remoteIssue.updatedAt ≠ lastUpdatedAt then
          let changedFields := changedWatchedFields lastTask remoteTask
          if changedFields.isEmpty then .ok (none, s)
          else
            .ok (some { taskId := taskId, localVersion := lastTask,
                        remoteVersion := remoteTask,
                        localUpdatedAt := lastUpdatedAt,
                        remoteUpdatedAt := remoteIssue.updatedAt,
                        changedFields := changedFields }, s)
        else .ok (none, s)

/-- `resolveConflict`: accept the remote version wholesale for
remote-resolution; push the local status and description back for
local-resolution (this path runs outside the source's `try`/`catch`);
any other resolution returns the remote version without touching the
caches. -/
def resolveConflict (s : PluginState) (env : RemoteEnv) (taskId : String)
    (resolution : String) : Except String (Option TrackerTask × PluginState) :=
  if !s.hasClient then .ok (none, s)
  else
    match detectConflict s env taskId with
    | .error e => .error e
    | .ok (none, s1) => getTask s1 env taskId
    | .ok (some conflict, s1) =>
      if resolution = "remote" then
        .ok (some conflict.remoteVersion,
             { s1 with
               taskCache := cacheSet taskId conflict.remoteVersion s1.taskCache
               lastSyncedTasks :=
                 cacheSet taskId (conflict.remoteVersion, conflict.remoteUpdatedAt)
                   s1.lastSyncedTasks })
      else if resolution = "local" then
        match findStateByType s1 env (mapStatusToStateType conflict.localVersion.status) with
        | .error e => .error e
        | .ok (none, s2) => .ok (some conflict.remoteVersion, s2)
        | .ok (some stateId, s2) =>
          match env.updateIssue taskId
              { stateId := some stateId, assigneeId := none, labelIds := none,
                description := conflict.localVersion.description } with
          | .error e => .error e
          | .ok updated =>
            let task := issueToTask updated
            .ok (some task,
                 { s2 with
                   taskCache := cacheSet taskId task s2.taskCache
                   lastSyncedTasks :=
                     cacheSet taskId (task, updated.updatedAt) s2.lastSyncedTasks })
      else .ok (some conflict.remoteVersion, s1)

/-- `getEpics`: fetch epic-labelled issues and normalize them; the
task cache is not written. -/
def getEpics (s : PluginState) (env : RemoteEnv) :
    Except String (List TrackerTask × PluginState) :=
  if !s.hasClient || s.projectId == "" then .ok ([], s)
  else
    match env.getEpicIssues s.projectId with
    | .error _ => .ok ([], s)
    | .ok epics => .ok (epics.map issueToTask, s)

/-- Specification-side single-pass predicate: a task matches a filter
when it satisfies every applicable criterion (AND across criteria);
the status, priority and type criteria match any listed value (OR),
the labels criterion requires every listed label (AND), and readiness
is evaluated against the full input collection. -/
def matchesAllCriteria (f : TaskFilter) (tasks : List TrackerTask)
    (t : TrackerTask) : Bool :=
  (!strCritApplies f.status || (statusList f).contains t.status) &&
  (!labelsApplies f || (labelsList f).all (fun label => taskHasLabel t label)) &&
  (!priorityApplies f || (priorityList f).contains t.priority) &&
  (!optStrApplies f.parentId || t.parentId == f.parentId) &&
  (!optStrApplies f.assignee || t.assignee == f.assignee) &&
  (!strCritApplies f.type || taskTypeMatches f t) &&
  (!excludeApplies f || !((excludeList f).contains t.id)) &&
  (!(f.ready == some true) || checkTaskReady t tasks)

/-- Specification-side pagination: drop `offset` elements, then take
`limit`, each applied only when positive. -/
def applyPagination (f : TaskFilter) (l : List TrackerTask) : List TrackerTask :=
  let l1 := match f.offset with
    | some o => if 0 < o then l.drop o else l
    | none => l
  match f.limit with
  | some n => if 0 < n then l1.take n else l1
  | none => l1

/-- Fixture for the `C5` witness: a task depending on an in-progress
task. -/
def c5DepTask : TrackerTask :=
  { id := "dep1", title := "Dep", status := "in_progress", priority := 2,
    description := none, labels := none, type := none, parentId := none,
    dependsOn := none, assignee := none, createdAt := none, updatedAt := none }

/-- Fixture for the `C5` witness: the dependent task. -/
def c5MainTask : TrackerTask :=
  { id := "main1", title := "Main", status := "open", priority := 2,
    description := none, labels := none, type := none, parentId := none,
    dependsOn := some ["dep1"], assignee := none, createdAt := none,
    updatedAt := none }

/-- Fixture: a task issue in the unstarted state. -/
def issueA : LinearIssue :=
  { id := "t1", identifier := "RAL-1", title := "Alpha",
    description := some "d1", priority := 2,
    state := { id := "st-un", name := "Todo", type := "unstarted" },
    labels := [{ id := "lb1", name := "ralph-tui" }],
    assignee := none, parent := none, children := none, project := none,
    createdAt := "2024-01-01", updatedAt := "2024-01-01" }

/-- Fixture: the same issue after a remote edit that moved it to the
started state and touched its timestamp. -/
def issueA2 : LinearIssue :=
  { issueA with
    state := { id := "st-st", name := "In Progress", type := "started" }
    updatedAt := "2024-01-02" }

/-- Fixture: the normalized form of `issueA`. -/
def taskA : TrackerTask := issueToTask issueA

/-- Fixture: an environment on which every remote call fails. -/
def envBase : RemoteEnv :=
  { getViewer := .error "unauthenticated"
    getStates := fun _ => .error "no states"
    getIssuesByLabel := fun _ _ => .error "no issues"
    getIssue := fun _ => .error "not found"
    updateIssue := fun _ _ => .error "no update"
    addComment := fun _ _ => .ok ()
    getEpicIssues := fun _ => .error "no epics"
    now := "2024-06-01" }

/-- Fixture: a connected plugin holding `taskA` in both the cache and
the sync baseline, with an empty workflow-state memo. -/
def sC1 : PluginState :=
  { hasClient := true, projectId := "p1", teamId := "tm1",
    labelName := "ralph-tui", userId := "u1",
    taskCache := [("t1", taskA)],
    stateCache := [],
    lastSyncedTasks := [("t1", (taskA, "2024-01-01"))] }

/-- Fixture: an environment whose fetch-by-id returns the remotely
edited `issueA2` and whose workflow-state fetch fails. -/
def envC1 : RemoteEnv :=
  { envBase with
    getIssue := fun iid => if iid = "t1" then .ok issueA2 else .error "nf" }

/-- Fixture: the conflict `detectConflict` reports between `taskA` and
the remotely edited `issueA2`. -/
def conflictC1 : ConflictInfo :=
  { taskId := "t1", localVersion := taskA,
    remoteVersion := issueToTask issueA2,
    localUpdatedAt := "2024-01-01", remoteUpdatedAt := "2024-01-02",
    changedFields := ["status"] }

/-- Fixture: the plugin state after remote-resolution of the
conflict. -/
def sC1AfterRemote : PluginState :=
  { sC1 with
    taskCache := cacheSet "t1" conflictC1.remoteVersion sC1.taskCache
    lastSyncedTasks :=
      cacheSet "t1" (conflictC1.remoteVersion, "2024-01-02") sC1.lastSyncedTasks }

/-- Fixture: an environment whose workflow-state fetch returns a team
with no workflow states at all. -/
def envNoStates : RemoteEnv :=
  { envBase with getStates := fun _ => .ok [] }

/-- Fixture: `sC1` after memoizing the empty workflow-state list. -/
def sC1Memo : PluginState :=
  { sC1 with stateCache := cacheSet "tm1" [] [] }

/-- Fixture: an environment with no workflow states whose update call
succeeds, returning the started-state issue. -/
def envNoStatesUpd : RemoteEnv :=
  { envNoStates with updateIssue := fun _ _ => .ok issueA2 }

/-- Fixture: an open task with unified priority 3. -/
def issueOpenA : LinearIssue :=
  { issueA with id := "a", identifier := "RAL-A", priority := 4 }

/-- Fixture: an in-progress task with unified priority 1. -/
def issueStartedB : LinearIssue :=
  { issueA with
    id := "b", identifier := "RAL-B", priority := 2,
    state := { id := "st-st", name := "In Progress", type := "started" } }

/-- Fixture: an open task with unified priority 0. -/
def issueOpenC : LinearIssue :=
  { issueA with id := "c", identifier := "RAL-C", priority := 1 }

/-- Fixture: an environment fetching the three-task example set. -/
def envNext : RemoteEnv :=
  { envBase with
    getIssuesByLabel := fun _ _ => .ok [issueOpenA, issueStartedB, issueOpenC] }

example : mapPriority 0 = 2 := by decide

example : mapPriority 1 = 0 := by decide

example : mapPriority 5 = 4 := by decide

example : mapStateToStatus "backlog" = "open" := by decide

example : mapStatusToStateType "blocked" = "started" := by decide

/-- A conditionally applied filter is the filter by the guarded
predicate. -/
theorem condFilter (c : Bool) (p : α → Bool) (l : List α) :
    (if c then l.filter p else l) = l.filter (fun a => !c || p a) := by
  cases c <;> simp

/-- The sequential filter pipeline equals a single pass with the
conjoined criteria predicate, followed by pagination. -/
theorem filterTasks_eq_single_pass (tasks : List TrackerTask) (f : TaskFilter) :
    filterTasks tasks (some f) =
      applyPagination f (tasks.filter (matchesAllCriteria f tasks)) := by
  have h : (((((((tasks.filter
      (fun t => !strCritApplies f.status || (statusList f).contains t.status)).filter
      (fun t => !labelsApplies f ||
        (labelsList f).all (fun label => taskHasLabel t label))).filter
      (fun t => !priorityApplies f || (priorityList f).contains t.priority)).filter
      (fun t => !optStrApplies f.parentId || t.parentId == f.parentId)).filter
      (fun t => !optStrApplies f.assignee || t.assignee == f.assignee)).filter
      (fun t => !strCritApplies f.type || taskTypeMatches f t)).filter
      (fun t => !excludeApplies f || !((excludeList f).contains t.id))).filter
      (fun t => !(f.ready == some true) || checkTaskReady t tasks) =
      tasks.filter (matchesAllCriteria f tasks) := by
    simp only [List.filter_filter]
    refine List.filter_congr (fun t _ => ?_)
    simp only [matchesAllCriteria]
    cases (!strCritApplies f.status || (statusList f).contains t.status) <;>
      cases (!labelsApplies f ||
        (labelsList f).all (fun label => taskHasLabel t label)) <;>
      cases (!priorityApplies f || (priorityList f).contains t.priority) <;>
      cases (!optStrApplies f.parentId || t.parentId == f.parentId) <;>
      cases (!optStrApplies f.assignee || t.assignee == f.assignee) <;>
      cases (!strCritApplies f.type || taskTypeMatches f t) <;>
      cases (!excludeApplies f || !((excludeList f).contains t.id)) <;>
      cases (!(f.ready == some true) || checkTaskReady t tasks) <;> rfl
  simp only [filterTasks, applyPagination, condFilter]
  rw [h]

/-- Membership in a paginated list implies membership in the
underlying list. -/
theorem mem_of_mem_applyPagination {f : TaskFilter} {l : List TrackerTask}
    {t : TrackerTask} (h : t ∈ applyPagination f l) : t ∈ l := by
  unfold applyPagination at h
  rcases ho : f.offset with _ | o <;> rcases hn : f.limit with _ | n <;>
    simp only [ho, hn] at h
  · exact h
  · split at h
    · exact List.take_subset _ _ h
    · exact h
  · split at h
    · exact List.drop_subset _ _ h
    · exact h
  · split at h
    · have h1 := List.take_subset _ _ h
      split at h1
      · exact List.drop_subset _ _ h1
      · exact h1
    · split at h
      · exact List.drop_subset _ _ h
      · exact h

/-- Membership in a filtered-plus-paginated result implies the
predicate. -/
theorem matches_of_mem_filterTasks {tasks : List TrackerTask} {f : TaskFilter}
    {t : TrackerTask} (h : t ∈ filterTasks tasks (some f)) :
    t ∈ tasks ∧ matchesAllCriteria f tasks t = true := by
  rw [filterTasks_eq_single_pass] at h
  have h1 := mem_of_mem_applyPagination h
  exact ⟨List.mem_of_mem_filter h1, List.of_mem_filter h1⟩

/-- Lookup after overwriting at a different key is unchanged. -/
theorem cacheGet_set_ne {α : Type} (m : List (String × α)) (id k : String)
    (v : α) (h : k ≠ id) : cacheGet (cacheSet id v m) k = cacheGet m k := by
  induction m with
  | nil => simp [cacheSet, cacheGet, List.find?, Ne.symm h]
  | cons hd tl ih =>
    by_cases hk : hd.1 = id
    · simp only [cacheSet, hk, if_pos rfl]
      simp [cacheGet, List.find?, Ne.symm h, hk]
    · simp only [cacheSet, if_neg hk]
      by_cases hk2 : hd.1 = k
      · simp [cacheGet, List.find?, hk2]
      · simp only [cacheGet, List.find?] at ih ⊢
        simp [hk2, ih]

/-- Lookup after overwriting at the same key returns the new value. -/
theorem cacheGet_set_eq {α : Type} (m : List (String × α)) (id : String)
    (v : α) : cacheGet (cacheSet id v m) id = some v := by
  induction m with
  | nil => simp [cacheSet, cacheGet, List.find?]
  | cons hd tl ih =>
    by_cases hk : hd.1 = id
    · simp [cacheSet, hk, cacheGet, List.find?]
    · simp only [cacheSet, if_neg hk]
      simp only [cacheGet, List.find?] at ih ⊢
      simp [hk, ih]

/-- `C6`: `mapStateToStatus` (the spec's `toUnifiedStatus`) and
`mapStatusToStateType` (the spec's `toRemoteType`) are total functions
with no error path: backlog and unstarted map to open, started to
in_progress, completed to completed, canceled to cancelled, and every
unrecognized input to open; in the reverse direction open maps to
unstarted (never backlog), in_progress and blocked both map to
started, completed to completed and cancelled to canceled. -/
theorem c6_status_translator_table :
    mapStateToStatus "backlog" = "open" ∧
    mapStateToStatus "unstarted" = "open" ∧
    mapStateToStatus "started" = "in_progress" ∧
    mapStateToStatus "completed" = "completed" ∧
    mapStateToStatus "canceled" = "cancelled" ∧
    (∀ s : String,
      s ∉ ["backlog", "unstarted", "started", "completed", "canceled"] →
      mapStateToStatus s = "open") ∧
    mapStatusToStateType "open" = "unstarted" ∧
    mapStatusToStateType "in_progress" = "started" ∧
    mapStatusToStateType "blocked" = "started" ∧
    mapStatusToStateType "completed" = "completed" ∧
    mapStatusToStateType "cancelled" = "canceled" := by
  refine ⟨rfl, rfl, rfl, rfl, rfl, ?_, rfl, rfl, rfl, rfl, rfl⟩
  intro s hs
  unfold mapStateToStatus
  split
  · exact absurd (by simp) hs
  · exact absurd (by simp) hs
  · exact absurd (by simp) hs
  · exact absurd (by simp) hs
  · exact absurd (by simp) hs
  · rfl

/-- Witness for `C6`: the unrecognized state type "triage" maps to
open. -/
theorem c6_status_translator_table_witness :
    mapStateToStatus "triage" = "open" :=
  c6_status_translator_table.2.2.2.2.2.1 "triage" (by decide)

/-- `C8`: the priority translation maps remote priority 0 to unified
2, and every other remote priority p to min 4 (max 0 (p - 1)); in
particular 1 maps to 0 and 5 maps to 4. -/
theorem c8_priority_translation :
    mapPriority 0 = 2 ∧
    (∀ p : Int, p ≠ 0 → mapPriority p = min 4 (max 0 (p - 1))) ∧
    mapPriority 1 = 0 ∧
    mapPriority 5 = 4 := by
  refine ⟨rfl, ?_, by decide, by decide⟩
  intro p hp
  unfold mapPriority
  rw [if_neg hp]

/-- Witness for `C8`: instantiating the general clamping clause at
remote priority 5. -/
theorem c8_priority_translation_witness :
    mapPriority 5 = min 4 (max 0 (5 - 1)) :=
  c8_priority_translation.2.1 5 (by decide)

/-- `C5`: a task with absent or empty `dependsOn` is ready; otherwise
it is ready exactly when every dependency id either finds no task in
the supplied set or finds one whose status is completed or cancelled;
a dependency found with status in_progress or open makes the task not
ready. -/
theorem depSatisfied_iff (allTasks : List TrackerTask) (depId : String) :
    depSatisfied allTasks depId = true ↔
      (allTasks.find? (fun t => t.id = depId) = none ∨
        ∃ u, allTasks.find? (fun t => t.id = depId) = some u ∧
          (u.status = "completed" ∨ u.status = "cancelled")) := by
  rcases hfind : allTasks.find? (fun t => t.id = depId) with _ | u <;>
    simp [depSatisfied, hfind]

theorem c5_dependency_readiness (task : TrackerTask)
    (allTasks : List TrackerTask) :
    (checkTaskReady task allTasks = true ↔
      (task.dependsOn = none ∨ task.dependsOn = some [] ∨
        ∀ deps, task.dependsOn = some deps → ∀ depId ∈ deps,
          allTasks.find? (fun t => t.id = depId) = none ∨
          ∃ u, allTasks.find? (fun t => t.id = depId) = some u ∧
            (u.status = "completed" ∨ u.status = "cancelled"))) ∧
    (∀ deps, task.dependsOn = some deps → ∀ depId ∈ deps, ∀ u,
      allTasks.find? (fun t => t.id = depId) = some u →
      (u.status = "in_progress" ∨ u.status = "open") →
      checkTaskReady task allTasks = false) := by
  constructor
  · rcases hdep : task.dependsOn with _ | deps
    · simp [checkTaskReady, hdep]
    · rcases deps with _ | ⟨d, ds⟩
      · simp [checkTaskReady, hdep]
      · simp [checkTaskReady, hdep, List.all_eq_true, depSatisfied_iff]
  · intro deps hdep depId hmem u hfind hst
    have hdsat : depSatisfied allTasks depId = false := by
      rcases hst with h | h <;> simp [depSatisfied, hfind, h]
    rcases deps with _ | ⟨d, ds⟩
    · exact absurd hmem (by simp)
    · simp only [checkTaskReady, hdep, List.isEmpty_cons, Bool.false_eq_true,
        if_false, List.all_eq_false]
      exact ⟨depId, hmem, by simp [hdsat]⟩

/-- Witness for `C5`: a task depending on an id present with status
in_progress is not ready. -/
theorem c5_dependency_readiness_witness :
    checkTaskReady c5MainTask [c5DepTask] = false :=
  (c5_dependency_readiness c5MainTask [c5DepTask]).2 ["dep1"] rfl "dep1"
    (by decide) c5DepTask (by decide) (Or.inl rfl)

/-- `C7`: the filter engine combines criteria with AND semantics (the
pipeline equals one pass of the conjoined predicate, paginated);
within the status, priority and type criteria a task matches any
listed value (OR); the labels criterion requires every listed label
(AND); excludeIds and ready are part of the conjoined predicate
applied before pagination, pagination (offset, then limit) slices the
already-filtered result, and readiness is evaluated against the full
input collection (the `tasks` argument of `matchesAllCriteria`). -/
theorem c7_filter_engine_semantics (tasks : List TrackerTask) (f : TaskFilter) :
    (filterTasks tasks (some f) =
      applyPagination f (tasks.filter (matchesAllCriteria f tasks))) ∧
    (∀ t : TrackerTask,
      ((statusList f).contains t.status = true ↔ t.status ∈ statusList f)) ∧
    (∀ t : TrackerTask,
      ((priorityList f).contains t.priority = true ↔ t.priority ∈ priorityList f)) ∧
    (∀ t : TrackerTask,
      ((labelsList f).all (fun label => taskHasLabel t label) = true ↔
        ∀ label ∈ labelsList f, taskHasLabel t label = true)) := by
  refine ⟨filterTasks_eq_single_pass tasks f, ?_, ?_, ?_⟩
  · intro t; simp
  · intro t; simp
  · intro t; simp [List.all_eq_true]

/-- Witness for `C7`: the single-pass equation at a concrete
collection and filter. -/
theorem c7_filter_engine_semantics_witness :
    filterTasks [c5DepTask, c5MainTask]
        (some { emptyFilter with status := some (.many ["open"]) }) =
      applyPagination { emptyFilter with status := some (.many ["open"]) }
        (List.filter
          (matchesAllCriteria { emptyFilter with status := some (.many ["open"]) }
            [c5DepTask, c5MainTask])
          [c5DepTask, c5MainTask]) :=
  (c7_filter_engine_semantics [c5DepTask, c5MainTask]
    { emptyFilter with status := some (.many ["open"]) }).1

/-- The watched-field diff is empty exactly when all four watched
fields agree. -/
theorem changedWatchedFields_isEmpty (l r : TrackerTask) :
    (changedWatchedFields l r).isEmpty = true ↔
      (l.status = r.status ∧ l.title = r.title ∧
        l.description = r.description ∧ l.assignee = r.assignee) := by
  unfold changedWatchedFields
  by_cases h1 : l.status = r.status <;> by_cases h2 : l.title = r.title <;>
    by_cases h3 : l.description = r.description <;>
    by_cases h4 : l.assignee = r.assignee <;>
    simp [h1, h2, h3, h4]

/-- `C3`: with a connected client, `detectConflict` returns no
conflict when no baseline exists; otherwise, given the freshly fetched
remote record, it reports a conflict exactly when the remote
`updatedAt` differs from the baseline `updatedAt` and at least one of
the four watched fields (status, title, description, assignee) differs
between the baseline task and the freshly normalized remote task; a
timestamp difference with no watched-field difference yields no
conflict. -/
theorem c3_detect_conflict (s : PluginState) (env : RemoteEnv) (id : String)
    (hc : s.hasClient = true) :
    (cacheGet s.lastSyncedTasks id = none →
      detectConflict s env id = .ok (none, s)) ∧
    (∀ lastTask lastUpd issue,
      cacheGet s.lastSyncedTasks id = some (lastTask, lastUpd) →
      env.getIssue id = .ok issue →
      (((∃ c, detectConflict s env id = .ok (some c, s)) ↔
        (issue.updatedAt ≠ lastUpd ∧
          (lastTask.status ≠ (issueToTask issue).status ∨
            lastTask.title ≠ (issueToTask issue).title ∨
            lastTask.description ≠ (issueToTask issue).description ∨
            lastTask.assignee ≠ (issueToTask issue).assignee))) ∧
        ((issue.updatedAt = lastUpd ∨
          (lastTask.status = (issueToTask issue).status ∧
            lastTask.title = (issueToTask issue).title ∧
            lastTask.description = (issueToTask issue).description ∧
            lastTask.assignee = (issueToTask issue).assignee)) →
          detectConflict s env id = .ok (none, s)))) := by
  constructor
  · intro hb
    simp [detectConflict, hc, hb]
  · intro lastTask lastUpd issue hb hfetch
    by_cases hup : issue.updatedAt = lastUpd
    · constructor
      · constructor
        · rintro ⟨c, hcme⟩
          rw [show detectConflict s env id = .ok (none, s) from by
            simp [detectConflict, hc, hb, hfetch, hup]] at hcme
          simp at hcme
        · rintro ⟨hne, _⟩
          exact absurd hup hne
      · intro _
        simp [detectConflict, hc, hb, hfetch, hup]
    · by_cases hemp :
        (changedWatchedFields lastTask (issueToTask issue)).isEmpty = true
      · have hfields := (changedWatchedFields_isEmpty _ _).mp hemp
        constructor
        · constructor
          · rintro ⟨c, hcme⟩
            rw [show detectConflict s env id = .ok (none, s) from by
              simp [detectConflict, hc, hb, hfetch, hup, hemp]] at hcme
            simp at hcme
          · rintro ⟨_, hdiff⟩
            rcases hfields with ⟨f1, f2, f3, f4⟩
            rcases hdiff with h | h | h | h
            · exact absurd f1 h
            · exact absurd f2 h
            · exact absurd f3 h
            · exact absurd f4 h
        · intro _
          simp [detectConflict, hc, hb, hfetch, hup, hemp]
      · have hdiff : lastTask.status ≠ (issueToTask issue).status ∨
            lastTask.title ≠ (issueToTask issue).title ∨
            lastTask.description ≠ (issueToTask issue).description ∨
            lastTask.assignee ≠ (issueToTask issue).assignee := by
          by_contra hcon
          push_neg at hcon
          exact hemp ((changedWatchedFields_isEmpty _ _).mpr
            ⟨hcon.1, hcon.2.1, hcon.2.2.1, hcon.2.2.2⟩)
        constructor
        · constructor
          · intro _
            exact ⟨hup, hdiff⟩
          · intro _
            refine ⟨{ taskId := id, localVersion := lastTask,
                      remoteVersion := issueToTask issue,
                      localUpdatedAt := lastUpd,
                      remoteUpdatedAt := issue.updatedAt,
                      changedFields :=
                        changedWatchedFields lastTask (issueToTask issue) }, ?_⟩
            simp [detectConflict, hc, hb, hfetch, hup, hemp]
        · rintro (h | h)
          · exact absurd h hup
          · exact absurd ((changedWatchedFields_isEmpty _ _).mpr h) hemp

/-- Witness for `C3`: on the fixture state the hypotheses hold and a
conflict is reported. -/
theorem c3_detect_conflict_witness :
    sC1.hasClient = true ∧
    cacheGet sC1.lastSyncedTasks "t1" = some (taskA, "2024-01-01") ∧
    envC1.getIssue "t1" = .ok issueA2 ∧
    ∃ c, detectConflict sC1 envC1 "t1" = .ok (some c, sC1) :=
  ⟨rfl, rfl, rfl,
    ((c3_detect_conflict sC1 envC1 "t1" rfl).2 taskA "2024-01-01" issueA2
      rfl rfl).1.mpr ⟨by decide, Or.inl (by decide)⟩⟩

/-- `C1` (counterexample to the claim as stated): on the fixture
conflict, merge-resolution returns the remote version but leaves the
plugin state — in particular the cache entry and the sync baseline for
the task — unchanged, while the claim asserts it updates both to the
remote version with the remote's `updatedAt`. -/
theorem c1_counterexample :
    detectConflict sC1 envC1 "t1" = .ok (some conflictC1, sC1) ∧
    resolveConflict sC1 envC1 "t1" "merge" =
      .ok (some conflictC1.remoteVersion, sC1) ∧
    resolveConflict sC1 envC1 "t1" "remote" =
      .ok (some conflictC1.remoteVersion, sC1AfterRemote) ∧
    cacheGet sC1.lastSyncedTasks "t1" = some (taskA, "2024-01-01") ∧
    cacheGet sC1AfterRemote.lastSyncedTasks "t1" =
      some (conflictC1.remoteVersion, "2024-01-02") ∧
    cacheGet sC1.taskCache "t1" = some taskA ∧
    taskA.status ≠ conflictC1.remoteVersion.status ∧
    ("2024-01-01" : String) ≠ "2024-01-02" := by
  exact ⟨rfl, rfl, rfl, rfl, rfl, rfl, by decide, by decide⟩

/-- `C1` (amended): for every task id for which `detectConflict` finds
a conflict, merge-resolution returns the same remote version as
remote-resolution, but performs no state update — the cache and the
sync baseline stay as `detectConflict` left them — whereas
remote-resolution updates the cache entry and the sync baseline for
that id to the remote version using the remote's own `updatedAt`. -/
theorem c1_merge_returns_remote_without_update (s : PluginState)
    (env : RemoteEnv) (taskId : String) (c : ConflictInfo) (s1 : PluginState)
    (hc : s.hasClient = true)
    (hconf : detectConflict s env taskId = .ok (some c, s1)) :
    resolveConflict s env taskId "merge" = .ok (some c.remoteVersion, s1) ∧
    resolveConflict s env taskId "remote" = .ok (some c.remoteVersion,
      { s1 with
        taskCache := cacheSet taskId c.remoteVersion s1.taskCache
        lastSyncedTasks :=
          cacheSet taskId (c.remoteVersion, c.remoteUpdatedAt)
            s1.lastSyncedTasks }) := by
  constructor <;> simp [resolveConflict, hc, hconf]

/-- Witness for the amended `C1` at the fixture conflict. -/
theorem c1_merge_returns_remote_without_update_witness :
    resolveConflict sC1 envC1 "t1" "merge" =
      .ok (some conflictC1.remoteVersion, sC1) ∧
    resolveConflict sC1 envC1 "t1" "remote" = .ok (some conflictC1.remoteVersion,
      { sC1 with
        taskCache := cacheSet "t1" conflictC1.remoteVersion sC1.taskCache
        lastSyncedTasks :=
          cacheSet "t1" (conflictC1.remoteVersion, conflictC1.remoteUpdatedAt)
            sC1.lastSyncedTasks }) :=
  c1_merge_returns_remote_without_update sC1 envC1 "t1" conflictC1 sC1 rfl rfl

/-- `getTeamStates` only ever writes the workflow-state memo: every
other plugin field is preserved. -/
theorem getTeamStates_frame {s : PluginState} {env : RemoteEnv}
    {states : List LinearState} {s1 : PluginState}
    (h : getTeamStates s env = .ok (states, s1)) :
    s1.taskCache = s.taskCache ∧ s1.lastSyncedTasks = s.lastSyncedTasks ∧
    s1.hasClient = s.hasClient ∧ s1.userId = s.userId := by
  unfold getTeamStates at h
  split at h
  · cases h
    exact ⟨rfl, rfl, rfl, rfl⟩
  · split at h
    · cases h
      exact ⟨rfl, rfl, rfl, rfl⟩
    · split at h
      · simp at h
      · cases h
        exact ⟨rfl, rfl, rfl, rfl⟩

/-- `findStateByType` only ever writes the workflow-state memo. -/
theorem findStateByType_frame {s : PluginState} {env : RemoteEnv} {ty : String}
    {res : Option String} {s1 : PluginState}
    (h : findStateByType s env ty = .ok (res, s1)) :
    s1.taskCache = s.taskCache ∧ s1.lastSyncedTasks = s.lastSyncedTasks ∧
    s1.hasClient = s.hasClient ∧ s1.userId = s.userId := by
  unfold findStateByType at h
  split at h
  · simp at h
  · rename_i states s1' heq
    cases h
    exact getTeamStates_frame heq

/-- `C9`: with a connected client, `completeTask` always returns a
result (never throwing) and never modifies the sync-baseline store;
when the team workflow lacks a completed state it returns a failure
result with an explicit message, leaving the task cache (and the
baseline) unchanged; and on a successful remote update it overwrites
only the task-cache entry for the given id. -/
theorem c9_completeTask_frame (s : PluginState) (env : RemoteEnv) (id : String)
    (reason : Option String) (hc : s.hasClient = true) :
    ∃ r s', completeTask s env id reason = .ok (r, s') ∧
      s'.lastSyncedTasks = s.lastSyncedTasks ∧
      (∀ s1, findStateByType s env "completed" = .ok (none, s1) →
        r.success = false ∧ r.message = "Could not find completed state" ∧
        s'.taskCache = s.taskCache) ∧
      (r.success = true →
        ∀ k, k ≠ id → cacheGet s'.taskCache k = cacheGet s.taskCache k) := by
  cases hfs : findStateByType s env "completed" with
  | error e =>
    refine ⟨completeCatchResult id e, s, ?_, rfl, ?_, ?_⟩
    · simp [completeTask, hc, hfs]
    · intro s1 h1
      simp at h1
    · intro hsucc
      simp [completeCatchResult] at hsucc
  | ok p =>
    obtain ⟨stOpt, s1⟩ := p
    have hframe := findStateByType_frame hfs
    cases stOpt with
    | none =>
      refine ⟨{ success := false, message := "Could not find completed state",
                task := none,
                error := some "No completed state found in team workflow" },
        s1, ?_, hframe.2.1, ?_, ?_⟩
      · simp [completeTask, hc, hfs]
      · intro s1' h1
        cases h1
        exact ⟨rfl, rfl, hframe.1⟩
      · intro hsucc
        simp at hsucc
    | some stId =>
      cases hupd : env.updateIssue id
          { stateId := some stId, assigneeId := none,
            labelIds := none, description := none } with
      | error e =>
        refine ⟨completeCatchResult id e, s1, ?_, hframe.2.1, ?_, ?_⟩
        · simp [completeTask, hc, hfs, hupd]
        · intro s1' h1
          simp at h1
        · intro hsucc
          simp [completeCatchResult] at hsucc
      | ok updatedIssue =>
        cases hnote : (match reason with
            | some r => env.addComment id ("Task completed by ralph-tui: " ++ r)
            | none => (.ok () : Except String Unit)) with
        | error e =>
          refine ⟨completeCatchResult id e, s1, ?_, hframe.2.1, ?_, ?_⟩
          · simp [completeTask, hc, hfs, hupd, hnote]
          · intro s1' h1
            simp at h1
          · intro hsucc
            simp [completeCatchResult] at hsucc
        | ok u =>
          refine ⟨{ success := true,
                    message := "Task " ++ updatedIssue.identifier ++
                      " marked as complete",
                    task := some (issueToTask updatedIssue), error := none },
            { s1 with
              taskCache := cacheSet id (issueToTask updatedIssue) s1.taskCache },
            ?_, hframe.2.1, ?_, ?_⟩
          · simp [completeTask, hc, hfs, hupd, hnote]
          · intro s1' h1
            simp at h1
          · intro _ k hk
            rw [cacheGet_set_ne s1.taskCache id k (issueToTask updatedIssue) hk,
              hframe.1]

/-- Witness for `C9`: on a team without a completed state the
hypotheses hold and `completeTask` reports the missing-state failure
without touching cache or baseline. -/
theorem c9_completeTask_frame_witness :
    findStateByType sC1 envNoStates "completed" = .ok (none, sC1Memo) ∧
    ∃ r s', completeTask sC1 envNoStates "t1" none = .ok (r, s') ∧
      s'.lastSyncedTasks = sC1.lastSyncedTasks ∧
      (∀ s1, findStateByType sC1 envNoStates "completed" = .ok (none, s1) →
        r.success = false ∧ r.message = "Could not find completed state" ∧
        s'.taskCache = sC1.taskCache) ∧
      (r.success = true →
        ∀ k, k ≠ "t1" → cacheGet s'.taskCache k = cacheGet sC1.taskCache k) :=
  ⟨rfl, c9_completeTask_frame sC1 envNoStates "t1" none rfl⟩

/-- `C10`: when the team workflow lacks a started state, `claimTask`
does not report a workflow-state-missing failure: it still issues the
remote update whose input carries only the assignee (state id absent),
and on a successful remote reply writes both the cache entry and the
sync baseline; in contrast, under a missing target state
`completeTask` reports a failure result and `updateTaskStatus` returns
nothing without calling the remote update. -/
theorem c10_claimTask_without_started_state (s : PluginState) (env : RemoteEnv)
    (id : String) (s1 : PluginState)
    (hc : s.hasClient = true) (hu : (s.userId == "") = false)
    (hstart : findStateByType s env "started" = .ok (none, s1)) :
    (∀ e, env.updateIssue id
        { stateId := none, assigneeId := some s.userId,
          labelIds := none, description := none } = .error e →
      claimTask s env id = .ok (none, s1)) ∧
    (∀ issue, env.updateIssue id
        { stateId := none, assigneeId := some s.userId,
          labelIds := none, description := none } = .ok issue →
      claimTask s env id = .ok (some (issueToTask issue),
        { s1 with
          taskCache := cacheSet id (issueToTask issue) s1.taskCache
          lastSyncedTasks :=
            cacheSet id (issueToTask issue, issue.updatedAt)
              s1.lastSyncedTasks })) ∧
    (∀ s2, findStateByType s env "completed" = .ok (none, s2) →
      completeTask s env id none = .ok
        ({ success := false, message := "Could not find completed state",
           task := none,
           error := some "No completed state found in team workflow" }, s2)) ∧
    (∀ st s3, findStateByType s env (mapStatusToStateType st) = .ok (none, s3) →
      updateTaskStatus s env id st = .ok (none, s3)) := by
  refine ⟨?_, ?_, ?_, ?_⟩
  · intro e hupd
    simp [claimTask, hc, hu, hstart, hupd]
  · intro issue hupd
    simp [claimTask, hc, hu, hstart, hupd]
  · intro s2 hcomp
    simp [completeTask, hc, hcomp]
  · intro st s3 hfind
    simp [updateTaskStatus, hc, hfind]

/-- Witness for `C10`: on a team without a started state the claim
still succeeds and writes cache and baseline. -/
theorem c10_claimTask_without_started_state_witness :
    findStateByType sC1 envNoStatesUpd "started" = .ok (none, sC1Memo) ∧
    claimTask sC1 envNoStatesUpd "t1" = .ok (some (issueToTask issueA2),
      { sC1Memo with
        taskCache := cacheSet "t1" (issueToTask issueA2) sC1Memo.taskCache
        lastSyncedTasks :=
          cacheSet "t1" (issueToTask issueA2, issueA2.updatedAt)
            sC1Memo.lastSyncedTasks }) :=
  ⟨rfl, (c10_claimTask_without_started_state sC1 envNoStatesUpd "t1" sC1Memo
    rfl rfl rfl).2.1 issueA2 rfl⟩

/-- The priority comparison is transitive. -/
theorem prioLE_trans (a b c : TrackerTask) :
    (decide (a.priority ≤ b.priority)) = true →
    (decide (b.priority ≤ c.priority)) = true →
    (decide (a.priority ≤ c.priority)) = true := by
  intro h1 h2
  simp only [decide_eq_true_eq] at h1 h2 ⊢
  exact le_trans h1 h2

/-- The priority comparison is total. -/
theorem prioLE_total (a b : TrackerTask) :
    (decide (a.priority ≤ b.priority) || decide (b.priority ≤ a.priority)) = true := by
  simp only [Bool.or_eq_true, decide_eq_true_eq]
  exact le_total a.priority b.priority

/-- Sorting by priority preserves membership. -/
theorem mem_sortByPriority {l : List TrackerTask} {t : TrackerTask} :
    t ∈ sortByPriority l ↔ t ∈ l := by
  unfold sortByPriority
  exact List.mem_mergeSort

/-- The sorted list is empty only for an empty input. -/
theorem sortByPriority_eq_nil {l : List TrackerTask}
    (h : sortByPriority l = []) : l = [] := by
  have hp := List.mergeSort_perm l (fun a b => a.priority ≤ b.priority)
  unfold sortByPriority at h
  rw [h] at hp
  exact hp.symm.eq_nil

/-- The head of the priority-sorted list is a minimum of the input. -/
theorem sortByPriority_head_min {l : List TrackerTask} {u : TrackerTask}
    {rest : List TrackerTask} (h : sortByPriority l = u :: rest) :
    u ∈ l ∧ ∀ v ∈ l, u.priority ≤ v.priority := by
  constructor
  · rw [← mem_sortByPriority, h]
    exact List.mem_cons_self u rest
  · intro v hv
    have hs := @List.sorted_mergeSort TrackerTask
      (fun a b => a.priority ≤ b.priority) prioLE_trans prioLE_total l
    unfold sortByPriority at h
    rw [h] at hs
    have hv' : v ∈ u :: rest := by
      rw [← h]
      exact List.mem_mergeSort.mpr hv
    rcases List.mem_cons.mp hv' with h1 | h2
    · simp [h1]
    · have := List.rel_of_pairwise_cons hs h2
      simpa using this

/-- Every member of the `getNextTask` qualifying set has status open
or in_progress and is ready with respect to the full fetched
collection. -/
theorem mem_nextTaskFilter {fetched : List TrackerTask} {t : TrackerTask}
    {filter? : Option TaskFilter}
    (h : t ∈ filterTasks fetched (some (nextTaskFilter filter?))) :
    (t.status = "open" ∨ t.status = "in_progress") ∧
    checkTaskReady t fetched = true := by
  obtain ⟨hmem, hmatch⟩ := matches_of_mem_filterTasks h
  unfold matchesAllCriteria at hmatch
  obtain ⟨⟨⟨⟨⟨⟨⟨ha, _⟩, _⟩, _⟩, _⟩, _⟩, _⟩, hh⟩ :=
    by simpa only [Bool.and_eq_true] using hmatch
  constructor
  · have : (statusList (nextTaskFilter filter?)).contains t.status = true := by
      have happ : strCritApplies (nextTaskFilter filter?).status = true := by
        simp [nextTaskFilter, strCritApplies]
      rw [happ] at ha
      simpa using ha
    have hmem2 : t.status ∈ statusList (nextTaskFilter filter?) := by
      simpa using this
    simpa [nextTaskFilter, statusList, OneOrMany.toList] using hmem2
  · have happ : ((nextTaskFilter filter?).ready == some true) = true := by
      simp [nextTaskFilter]
    rw [happ] at hh
    simpa using hh

/-- `C4`: with a connected client and a successful fetch, `getNextTask`
considers only ready tasks with status open or in_progress (the
qualifying set); it returns none when the qualifying set is empty;
every returned task belongs to the qualifying set, has status open or
in_progress, and is ready against the full fetched set; when some
qualifying task is in_progress an in_progress task is returned (even
when an open task has a strictly lower priority number); and when no
qualifying task is in_progress the returned task has minimal priority
in the qualifying set (the head of the ascending priority sort). -/
theorem c4_getNextTask (s : PluginState) (env : RemoteEnv)
    (filter? : Option TaskFilter) (issues : List LinearIssue)
    (hc : s.hasClient = true) (hp : (s.projectId == "") = false)
    (hfetch : env.getIssuesByLabel s.projectId s.labelName = .ok issues) :
    ∃ r s', getNextTask s env filter? = .ok (r, s') ∧
      (filterTasks (issues.map issueToTask)
          (some (nextTaskFilter filter?)) = [] → r = none) ∧
      (∀ u, r = some u →
        u ∈ filterTasks (issues.map issueToTask) (some (nextTaskFilter filter?)) ∧
        (u.status = "open" ∨ u.status = "in_progress") ∧
        checkTaskReady u (issues.map issueToTask) = true) ∧
      ((∃ t ∈ filterTasks (issues.map issueToTask) (some (nextTaskFilter filter?)),
          t.status = "in_progress") →
        ∃ u, r = some u ∧ u.status = "in_progress") ∧
      (filterTasks (issues.map issueToTask) (some (nextTaskFilter filter?)) ≠ [] →
        (∀ t ∈ filterTasks (issues.map issueToTask) (some (nextTaskFilter filter?)),
          t.status ≠ "in_progress") →
        ∃ u, r = some u ∧
          ∀ v ∈ filterTasks (issues.map issueToTask) (some (nextTaskFilter filter?)),
            u.priority ≤ v.priority) := by
  have hgt : getTasks s env (some (nextTaskFilter filter?)) =
      .ok (filterTasks (issues.map issueToTask) (some (nextTaskFilter filter?)),
        { s with
          taskCache :=
            (issues.map issueToTask).foldl (fun m t => cacheSet t.id t m)
              s.taskCache }) := by
    simp [getTasks, hc, hp, hfetch]
  set sAfter : PluginState :=
    { s with
      taskCache :=
        (issues.map issueToTask).foldl (fun m t => cacheSet t.id t m)
          s.taskCache } with hsAfter
  by_cases hemp : filterTasks (issues.map issueToTask)
      (some (nextTaskFilter filter?)) = []
  · refine ⟨none, sAfter, ?_, fun _ => rfl, ?_, ?_, ?_⟩
    · simp [getNextTask, hgt, hemp]
    · intro u hu
      simp at hu
    · rintro ⟨t, ht, _⟩
      rw [hemp] at ht
      simp at ht
    · intro hne _
      exact absurd hemp hne
  · have hnis : (filterTasks (issues.map issueToTask)
        (some (nextTaskFilter filter?))).isEmpty = false := by
      simpa [List.isEmpty_iff] using hemp
    cases hfind : (sortByPriority (filterTasks (issues.map issueToTask)
        (some (nextTaskFilter filter?)))).find?
        (fun t => t.status = "in_progress") with
    | some inP =>
      have hinPmem : inP ∈ filterTasks (issues.map issueToTask)
          (some (nextTaskFilter filter?)) :=
        mem_sortByPriority.mp (List.mem_of_find?_eq_some hfind)
      have hinPst : inP.status = "in_progress" := by
        have := List.find?_some hfind
        simpa using this
      refine ⟨some inP, sAfter, ?_, ?_, ?_, ?_, ?_⟩
      · simp [getNextTask, hgt, hnis, hfind]
      · intro habs
        exact absurd habs hemp
      · intro u hu
        cases hu
        exact ⟨hinPmem, Or.inr hinPst, (mem_nextTaskFilter hinPmem).2⟩
      · intro _
        exact ⟨inP, rfl, hinPst⟩
      · intro _ hnone
        exact absurd hinPst (hnone inP hinPmem)
    | none =>
      have hsne : sortByPriority (filterTasks (issues.map issueToTask)
          (some (nextTaskFilter filter?))) ≠ [] := by
        intro habs
        exact hemp (sortByPriority_eq_nil habs)
      rcases hsort : sortByPriority (filterTasks (issues.map issueToTask)
          (some (nextTaskFilter filter?))) with _ | ⟨u, rest⟩
      · exact absurd hsort hsne
      · have hmin := sortByPriority_head_min hsort
        refine ⟨some u, sAfter, ?_, ?_, ?_, ?_, ?_⟩
        · rw [hsort] at hfind
          simp [getNextTask, hgt, hnis, hfind, hsort]
        · intro habs
          exact absurd habs hemp
        · intro v hv
          cases hv
          rcases mem_nextTaskFilter hmin.1 with ⟨hst, hrd⟩
          exact ⟨hmin.1, hst, hrd⟩
        · rintro ⟨t, ht, htst⟩
          have hts : t ∈ sortByPriority (filterTasks (issues.map issueToTask)
              (some (nextTaskFilter filter?))) := mem_sortByPriority.mpr ht
          have := List.find?_eq_none.mp hfind t hts
          simp [htst] at this
        · intro _ _
          exact ⟨u, rfl, hmin.2⟩

/-- Witness for `C4`: over the spec's example set (open priority 3,
in_progress priority 1, open priority 0, all ready) the returned task
is in_progress even though an open task has a strictly lower priority
number. -/
theorem c4_getNextTask_witness :
    ∃ r s', getNextTask sC1 envNext none = .ok (r, s') ∧
      ∃ u, r = some u ∧ u.status = "in_progress" := by
  obtain ⟨r, s', hr, _, _, hinp, _⟩ :=
    c4_getNextTask sC1 envNext none [issueOpenA, issueStartedB, issueOpenC]
      rfl rfl rfl
  refine ⟨r, s', hr, hinp ⟨issueToTask issueStartedB, ?_, by decide⟩⟩
  rw [show filterTasks ([issueOpenA, issueStartedB, issueOpenC].map issueToTask)
      (some (nextTaskFilter none)) =
      [issueToTask issueOpenA, issueToTask issueStartedB, issueToTask issueOpenC]
      from rfl]
  exact List.mem_cons_of_mem _ (List.mem_cons_self _ _)

/-- `getTasks` catches every collaborator failure. -/
theorem getTasks_no_throw (s : PluginState) (env : RemoteEnv)
    (filter? : Option TaskFilter) :
    ∃ r s', getTasks s env filter? = .ok (r, s') := by
  unfold getTasks
  repeat' first
  | exact ⟨_, _, rfl⟩
  | split

/-- `getTask` catches every collaborator failure. -/
theorem getTask_no_throw (s : PluginState) (env : RemoteEnv) (id : String) :
    ∃ r s', getTask s env id = .ok (r, s') := by
  unfold getTask
  repeat' first
  | exact ⟨_, _, rfl⟩
  | split

/-- `getNextTask` catches every collaborator failure. -/
theorem getNextTask_no_throw (s : PluginState) (env : RemoteEnv)
    (filter? : Option TaskFilter) :
    ∃ r s', getNextTask s env filter? = .ok (r, s') := by
  unfold getNextTask
  split
  · rename_i e heq
    obtain ⟨tasks, s1, h⟩ := getTasks_no_throw s env (some (nextTaskFilter filter?))
    exact absurd (h.symm.trans heq) (by simp)
  · rename_i tasks s1 heq
    dsimp only
    split
    · exact ⟨_, _, rfl⟩
    · split
      · exact ⟨_, _, rfl⟩
      · exact ⟨_, _, rfl⟩

/-- `claimTask` catches every collaborator failure. -/
theorem claimTask_no_throw (s : PluginState) (env : RemoteEnv) (id : String) :
    ∃ r s', claimTask s env id = .ok (r, s') := by
  unfold claimTask
  repeat' first
  | exact ⟨_, _, rfl⟩
  | split

/-- `completeTask` catches every collaborator failure. -/
theorem completeTask_no_throw (s : PluginState) (env : RemoteEnv) (id : String)
    (reason : Option String) :
    ∃ r s', completeTask s env id reason = .ok (r, s') := by
  unfold completeTask
  repeat' first
  | exact ⟨_, _, rfl⟩
  | split
  | dsimp only

/-- `updateTaskStatus` catches every collaborator failure. -/
theorem updateTaskStatus_no_throw (s : PluginState) (env : RemoteEnv)
    (id : String) (status : String) :
    ∃ r s', updateTaskStatus s env id status = .ok (r, s') := by
  unfold updateTaskStatus
  repeat' first
  | exact ⟨_, _, rfl⟩
  | split

/-- `sync` catches every collaborator failure. -/
theorem sync_no_throw (s : PluginState) (env : RemoteEnv) :
    ∃ r s', sync s env = .ok (r, s') := by
  unfold sync
  repeat' first
  | exact ⟨_, _, rfl⟩
  | split

/-- `detectConflict` catches every collaborator failure. -/
theorem detectConflict_no_throw (s : PluginState) (env : RemoteEnv)
    (taskId : String) :
    ∃ r s', detectConflict s env taskId = .ok (r, s') := by
  unfold detectConflict
  repeat' first
  | exact ⟨_, _, rfl⟩
  | split
  | dsimp only

/-- `isComplete` catches every collaborator failure. -/
theorem isComplete_no_throw (s : PluginState) (env : RemoteEnv)
    (filter? : Option TaskFilter) :
    ∃ r s', isComplete s env filter? = .ok (r, s') := by
  unfold isComplete
  split
  · rename_i e heq
    obtain ⟨tasks, s1, h⟩ := getTasks_no_throw s env filter?
    exact absurd (h.symm.trans heq) (by simp)
  · exact ⟨_, _, rfl⟩

/-- `isTaskReady` catches every collaborator failure. -/
theorem isTaskReady_no_throw (s : PluginState) (env : RemoteEnv) (id : String) :
    ∃ r s', isTaskReady s env id = .ok (r, s') := by
  unfold isTaskReady
  split
  · rename_i e heq
    obtain ⟨t?, s1, h⟩ := getTask_no_throw s env id
    exact absurd (h.symm.trans heq) (by simp)
  · exact ⟨_, _, rfl⟩
  · rename_i task s1 heq
    split
    · rename_i e heq2
      obtain ⟨allTasks, s2, h2⟩ := getTasks_no_throw s1 env none
      exact absurd (h2.symm.trans heq2) (by simp)
    · exact ⟨_, _, rfl⟩

/-- `getEpics` catches every collaborator failure. -/
theorem getEpics_no_throw (s : PluginState) (env : RemoteEnv) :
    ∃ r s', getEpics s env = .ok (r, s') := by
  unfold getEpics
  repeat' first
  | exact ⟨_, _, rfl⟩
  | split

/-- `resolveConflict` catches every collaborator failure except on its
local-resolution path. -/
theorem resolveConflict_no_throw_nonlocal (s : PluginState) (env : RemoteEnv)
    (taskId : String) (resolution : String) (hres : resolution ≠ "local") :
    ∃ r s', resolveConflict s env taskId resolution = .ok (r, s') := by
  unfold resolveConflict
  split
  · exact ⟨_, _, rfl⟩
  · split
    · rename_i e heq
      obtain ⟨c?, s1, h⟩ := detectConflict_no_throw s env taskId
      exact absurd (h.symm.trans heq) (by simp)
    · rename_i c? s1 heq
      exact getTask_no_throw s1 env taskId
    · rename_i conflict s1 heq
      split
      · exact ⟨_, _, rfl⟩
      · exact ⟨_, _, rfl⟩

/-- `resolveConflict` also catches every collaborator failure, for
every resolution including the local one, whenever `detectConflict`
finds no conflict: it degrades to a plain task fetch, which catches
internally. -/
theorem resolveConflict_no_throw_no_conflict (s : PluginState)
    (env : RemoteEnv) (taskId resolution : String) (s1 : PluginState)
    (h : detectConflict s env taskId = .ok (none, s1)) :
    ∃ r s', resolveConflict s env taskId resolution = .ok (r, s') := by
  unfold resolveConflict
  split
  · exact ⟨_, _, rfl⟩
  · rw [h]
    exact getTask_no_throw s1 env taskId

/-- `C2` (counterexample to the claim as stated): on the fixture state
a conflict exists, the workflow-state memo is empty and the
workflow-state fetch throws, so `resolveConflict` with the local
resolution propagates the collaborator failure to its caller instead
of returning a result object. -/
theorem c2_counterexample :
    resolveConflict sC1 envC1 "t1" "local" = .error "no states" := rfl

/-- `C2` (amended): every public engine operation except
`resolveConflict` catches every collaborator failure internally — for
every state, environment and input it returns a success/failure result
or an optional/empty value and never propagates an error past its
boundary — and `resolveConflict` does the same for every resolution
other than the local one and, for every resolution including the local
one, whenever no conflict is found; only the local path's
workflow-state lookup and remote update, reached when a conflict
exists, run outside the try/catch. -/
theorem c2_operations_never_throw :
    (∀ (s : PluginState) (env : RemoteEnv) (filter? : Option TaskFilter),
      ∃ r s', getTasks s env filter? = .ok (r, s')) ∧
    (∀ (s : PluginState) (env : RemoteEnv) (id : String),
      ∃ r s', getTask s env id = .ok (r, s')) ∧
    (∀ (s : PluginState) (env : RemoteEnv) (filter? : Option TaskFilter),
      ∃ r s', getNextTask s env filter? = .ok (r, s')) ∧
    (∀ (s : PluginState) (env : RemoteEnv) (id : String),
      ∃ r s', claimTask s env id = .ok (r, s')) ∧
    (∀ (s : PluginState) (env : RemoteEnv) (id : String) (reason : Option String),
      ∃ r s', completeTask s env id reason = .ok (r, s')) ∧
    (∀ (s : PluginState) (env : RemoteEnv) (id : String) (status : String),
      ∃ r s', updateTaskStatus s env id status = .ok (r, s')) ∧
    (∀ (s : PluginState) (env : RemoteEnv),
      ∃ r s', sync s env = .ok (r, s')) ∧
    (∀ (s : PluginState) (env : RemoteEnv) (taskId : String),
      ∃ r s', detectConflict s env taskId = .ok (r, s')) ∧
    (∀ (s : PluginState) (env : RemoteEnv) (filter? : Option TaskFilter),
      ∃ r s', isComplete s env filter? = .ok (r, s')) ∧
    (∀ (s : PluginState) (env : RemoteEnv) (id : String),
      ∃ r s', isTaskReady s env id = .ok (r, s')) ∧
    (∀ (s : PluginState) (env : RemoteEnv),
      ∃ r s', getEpics s env = .ok (r, s')) ∧
    (∀ (s : PluginState) (env : RemoteEnv) (taskId resolution : String),
      resolution ≠ "local" →
      ∃ r s', resolveConflict s env taskId resolution = .ok (r, s')) ∧
    (∀ (s : PluginState) (env : RemoteEnv) (taskId resolution : String)
      (s1 : PluginState), detectConflict s env taskId = .ok (none, s1) →
      ∃ r s', resolveConflict s env taskId resolution = .ok (r, s')) :=
  ⟨getTasks_no_throw, getTask_no_throw, getNextTask_no_throw,
   claimTask_no_throw, completeTask_no_throw, updateTaskStatus_no_throw,
   sync_no_throw, detectConflict_no_throw, isComplete_no_throw,
   isTaskReady_no_throw, getEpics_no_throw,
   resolveConflict_no_throw_nonlocal, resolveConflict_no_throw_no_conflict⟩

/-- Witness for the amended `C2`: merge-resolution on the fixture
conflict state returns a value even though the same state and
environment make the local path throw; and on an environment whose
fetch fails, no conflict is found and even local-resolution returns a
value. -/
theorem c2_operations_never_throw_witness :
    (("merge" : String) ≠ "local" ∧
      ∃ r s', resolveConflict sC1 envC1 "t1" "merge" = .ok (r, s')) ∧
    (detectConflict sC1 envBase "t1" = .ok (none, sC1) ∧
      ∃ r s', resolveConflict sC1 envBase "t1" "local" = .ok (r, s')) :=
  ⟨⟨by decide,
    (c2_operations_never_throw.2.2.2.2.2.2.2.2.2.2.2.1) sC1 envC1 "t1" "merge"
      (by decide)⟩,
   ⟨rfl,
    (c2_operations_never_throw.2.2.2.2.2.2.2.2.2.2.2.2) sC1 envBase "t1" "local"
      sC1 rfl⟩⟩
